import Mathlib

/-!
# Verification of the Chess Mentor assessment scoring engine

Shallow embedding of the pure logic of `src/server.py`:

* `calculate_section_score` / `analyze_assessment` — the Assessment Scoring
  & Summary Engine;
* `prepare_for_mongo` / `parse_from_mongo` — the datetime serialization
  helpers;
* `verify_password` — the bcrypt verification wrapper.

Python numbers (ints and floats used by the scoring arithmetic) are
modelled by exact rationals `ℚ`; all the concrete values the theorems
mention are small dyadic/decimal values on which Python's float
arithmetic is exact as well.  A Python `dict` sub-record is modelled by a
structure of `Option`-valued fields (`none` = key absent), with
`Option.getD` playing the role of `dict.get(key, default)`.
-/

/-- One category sub-record of an assessment, as a dictionary whose keys
are the union of the fields of the six pydantic models
(`OpeningAssessment` … `GeneralAssessment`).  A `none` field is an absent
key; `dict.get(k, d)` is `(·.getD d)`.  Free-text fields are kept so that
"independence from other fields" statements are meaningful. -/
structure SectionData where
  white_openings : Option String := none
  black_openings : Option String := none
  preparation_depth : Option ℚ := none
  opening_study_time : Option ℚ := none
  favorite_opening : Option String := none
  opening_weaknesses : Option String := none
  opening_study_resources : Option String := none
  calculation_ability : Option ℚ := none
  tactical_vision : Option ℚ := none
  middlegame_study_time : Option ℚ := none
  main_problems : Option String := none
  pattern_recognition : Option String := none
  strategic_understanding : Option String := none
  piece_coordination : Option String := none
  attack_defense_balance : Option String := none
  endgame_calculation : Option ℚ := none
  theoretical_knowledge : Option ℚ := none
  endgame_study_time : Option ℚ := none
  endgame_intuition : Option String := none
  practical_application : Option String := none
  pawn_endgames : Option ℚ := none
  rook_endgames : Option ℚ := none
  bishop_endgames : Option ℚ := none
  knight_endgames : Option ℚ := none
  queen_endgames : Option ℚ := none
  confidence_level : Option ℚ := none
  motivation_level : Option ℚ := none
  focus_duration : Option ℚ := none
  anxiety_management : Option String := none
  pressure_handling : Option String := none
  tilt_recovery : Option String := none
  competitive_mindset : Option String := none
  mental_preparation : Option String := none
  self_evaluation_skills : Option String := none
  daily_study_time : Option ℚ := none
  study_consistency : Option ℚ := none
  preferred_methods : Option String := none
  analysis_habits : Option String := none
  game_review_frequency : Option String := none
  coach_interaction : Option String := none
  goal_setting : Option String := none
  study_resources : Option String := none
  physical_stamina : Option ℚ := none
  sleep_before_games : Option ℚ := none
  nutrition_habits : Option String := none
  exercise_routine : Option String := none
  technology_usage : Option String := none
  tournament_purpose : Option String := none
  additional_notes : Option String := none
  deriving DecidableEq

/-- `calculate_section_score(section_data, section_type)` from
`src/server.py` lines 168–206: builds the list of contributing values for
the recognized tag and returns its mean, `1.0` when the list is empty. -/
def calculate_section_score (section_data : SectionData) (section_type : String) : ℚ :=
  let scores : List ℚ :=
    if section_type = "opening" then
      [section_data.preparation_depth.getD 1 / 20 * 10]
    else if section_type = "middlegame" then
      [section_data.calculation_ability.getD 1,
       section_data.tactical_vision.getD 1]
    else if section_type = "endgame" then
      [section_data.endgame_calculation.getD 1,
       section_data.theoretical_knowledge.getD 1,
       section_data.pawn_endgames.getD 1,
       section_data.rook_endgames.getD 1,
       section_data.bishop_endgames.getD 1,
       section_data.knight_endgames.getD 1,
       section_data.queen_endgames.getD 1]
    else if section_type = "psychology" then
      [section_data.confidence_level.getD 1,
       section_data.motivation_level.getD 1,
       min (section_data.focus_duration.getD 10 / 60 * 10) 10]
    else if section_type = "study_habits" then
      [section_data.study_consistency.getD 1,
       min (section_data.daily_study_time.getD 10 / 120 * 10) 10]
    else if section_type = "general" then
      [section_data.physical_stamina.getD 1,
       min (section_data.sleep_before_games.getD 8 / 8 * 10) 10]
    else []
  if scores = [] then 1 else scores.sum / scores.length

/-- A whole assessment record: the six category keys, each possibly
absent (`analyze_assessment` skips absent sections). -/
structure Assessment where
  opening : Option SectionData := none
  middlegame : Option SectionData := none
  endgame : Option SectionData := none
  psychology : Option SectionData := none
  study_habits : Option SectionData := none
  general : Option SectionData := none
  deriving DecidableEq

/-- `section in assessment` / `assessment[section]` for the six
recognized keys. -/
def Assessment.get (a : Assessment) (section_ty : String) : Option SectionData :=
  if section_ty = "opening" then a.opening
  else if section_ty = "middlegame" then a.middlegame
  else if section_ty = "endgame" then a.endgame
  else if section_ty = "psychology" then a.psychology
  else if section_ty = "study_habits" then a.study_habits
  else if section_ty = "general" then a.general
  else none

/-- The fixed iteration order of `analyze_assessment`
(`sections = ['opening', …, 'general']`, line 210). -/
def sectionsList : List String :=
  ["opening", "middlegame", "endgame", "psychology", "study_habits", "general"]

/-- `'_'.replace('_',' ')` on a Python string (character-wise, all
occurrences). -/
def pyReplaceUnderscore (s : String) : String :=
  String.mk (s.data.map (fun c => if c = '_' then ' ' else c))

/-- Helper for `str.title()`: the boolean tracks whether the previous
character was alphabetic. -/
def titleAux : Bool → List Char → List Char
  | _, [] => []
  | prevAlpha, c :: cs =>
    (if c.isAlpha then (if prevAlpha then c.toLower else c.toUpper) else c)
      :: titleAux c.isAlpha cs

/-- Python `str.title()` (restricted to ASCII letters, which is all the
engine feeds it): the first letter of every run of letters is
upper-cased, the rest lower-cased. -/
def pyTitle (s : String) : String :=
  String.mk (titleAux false s.data)

/-- `section.replace('_', ' ').title()` — the display name of a category
(lines 221, 223). -/
def displayName (s : String) : String :=
  pyTitle (pyReplaceUnderscore s)

/-- The result dictionary of `analyze_assessment`. -/
structure AnalysisResult where
  overall_score : ℚ
  section_scores : List (String × ℚ)
  critical_areas : List String
  strengths : List String
  deriving DecidableEq

/-- Loop body of `analyze_assessment` (lines 215–223): accumulator is
`(section_scores, critical_areas, strengths)`; an absent section is
skipped, a present one appends its score and, `if score <= 3` /
`elif score >= 8`, its display name. -/
def analyzeStep (a : Assessment)
    (acc : List (String × ℚ) × List String × List String) (sec : String) :
    List (String × ℚ) × List String × List String :=
  match a.get sec with
  | none => acc
  | some sd =>
    let score := calculate_section_score sd sec
    ( acc.1 ++ [(sec, score)],
      if score ≤ 3 then acc.2.1 ++ [displayName sec] else acc.2.1,
      if score ≤ 3 then acc.2.2
      else if score ≥ 8 then acc.2.2 ++ [displayName sec] else acc.2.2 )

/-- `analyze_assessment(assessment)` from `src/server.py` lines 208–232:
iterates `sectionsList`, collects section scores and labels, and returns
the mean of the collected scores (`1.0` when none were collected). -/
def analyze_assessment (a : Assessment) : AnalysisResult :=
  let r := sectionsList.foldl (analyzeStep a) ([], [], [])
  { overall_score := if r.1 = [] then 1 else (r.1.map Prod.snd).sum / r.1.length,
    section_scores := r.1,
    critical_areas := r.2.1,
    strengths := r.2.2 }

/-- A sub-record with every 1–10 rating field set to 1 and every
differently-scaled field at its declared minimum: `preparation_depth = 1`
(its range is 1–20 moves per the model's comment and its default), and the
unbounded-below minute/hour fields at 0. -/
def subAllMin : SectionData :=
  { preparation_depth := some 1
    calculation_ability := some 1
    tactical_vision := some 1
    endgame_calculation := some 1
    theoretical_knowledge := some 1
    pawn_endgames := some 1
    rook_endgames := some 1
    bishop_endgames := some 1
    knight_endgames := some 1
    queen_endgames := some 1
    confidence_level := some 1
    motivation_level := some 1
    focus_duration := some 0
    study_consistency := some 1
    daily_study_time := some 0
    physical_stamina := some 1
    sleep_before_games := some 0 }

/-- C1 counterexample: on the all-minimum sub-record the `opening` score
is `1/20*10 = 0.5`, not `1.0` as the claim states. -/
theorem opening_min_score_is_half :
    calculate_section_score subAllMin "opening" = 1/2 ∧
      calculate_section_score subAllMin "opening" ≠ 1 := by
  constructor <;> norm_num [calculate_section_score, subAllMin]

/-- C1 (amended): for every one of the six category tags, a sub-record
whose 1–10 rating fields all equal 1 and whose differently-scaled fields
sit at the minimum of the normalized 1–10 scale (`preparation_depth = 2`,
`focus_duration = 6`, `daily_study_time = 12`, `sleep_before_games = 0.8`,
each normalizing to 1) scores exactly 1.0 in every category. -/
theorem section_score_one_at_unit_inputs (sd : SectionData)
    (hprep : sd.preparation_depth = some 2)
    (hca : sd.calculation_ability = some 1) (htv : sd.tactical_vision = some 1)
    (hec : sd.endgame_calculation = some 1) (htk : sd.theoretical_knowledge = some 1)
    (hpe : sd.pawn_endgames = some 1) (hre : sd.rook_endgames = some 1)
    (hbe : sd.bishop_endgames = some 1) (hke : sd.knight_endgames = some 1)
    (hqe : sd.queen_endgames = some 1)
    (hcl : sd.confidence_level = some 1) (hml : sd.motivation_level = some 1)
    (hfd : sd.focus_duration = some 6)
    (hsc : sd.study_consistency = some 1) (hds : sd.daily_study_time = some 12)
    (hps : sd.physical_stamina = some 1) (hsl : sd.sleep_before_games = some (4/5)) :
    calculate_section_score sd "opening" = 1 ∧
      calculate_section_score sd "middlegame" = 1 ∧
      calculate_section_score sd "endgame" = 1 ∧
      calculate_section_score sd "psychology" = 1 ∧
      calculate_section_score sd "study_habits" = 1 ∧
      calculate_section_score sd "general" = 1 := by
  refine ⟨?_, ?_, ?_, ?_, ?_, ?_⟩ <;>
    simp [calculate_section_score, hprep, hca, htv, hec, htk, hpe, hre, hbe,
      hke, hqe, hcl, hml, hfd, hsc, hds, hps, hsl, min_def] <;>
    norm_num

/-- The sub-record with every rating at 1 and every scaled field at the
value normalizing to 1; used as the concrete witness input. -/
def subUnit : SectionData :=
  { preparation_depth := some 2
    calculation_ability := some 1
    tactical_vision := some 1
    endgame_calculation := some 1
    theoretical_knowledge := some 1
    pawn_endgames := some 1
    rook_endgames := some 1
    bishop_endgames := some 1
    knight_endgames := some 1
    queen_endgames := some 1
    confidence_level := some 1
    motivation_level := some 1
    focus_duration := some 6
    study_consistency := some 1
    daily_study_time := some 12
    physical_stamina := some 1
    sleep_before_games := some (4/5) }

/-- Witness for the amended C1 at the concrete sub-record `subUnit`. -/
theorem section_score_one_at_unit_inputs_witness :
    calculate_section_score subUnit "opening" = 1 ∧
      calculate_section_score subUnit "middlegame" = 1 ∧
      calculate_section_score subUnit "endgame" = 1 ∧
      calculate_section_score subUnit "psychology" = 1 ∧
      calculate_section_score subUnit "study_habits" = 1 ∧
      calculate_section_score subUnit "general" = 1 :=
  section_score_one_at_unit_inputs subUnit rfl rfl rfl rfl rfl rfl rfl rfl rfl
    rfl rfl rfl rfl rfl rfl rfl rfl

/-- C4: an unrecognized category tag produces the empty contribution list
and hence the documented default score `1.0`, whatever the sub-record. -/
theorem unrecognized_tag_scores_one (sd : SectionData) (t : String)
    (h1 : t ≠ "opening") (h2 : t ≠ "middlegame") (h3 : t ≠ "endgame")
    (h4 : t ≠ "psychology") (h5 : t ≠ "study_habits") (h6 : t ≠ "general") :
    calculate_section_score sd t = 1 := by
  simp [calculate_section_score, h1, h2, h3, h4, h5, h6]

/-- Witness for C4 at the concrete tag "tactics". -/
theorem unrecognized_tag_scores_one_witness :
    calculate_section_score {} "tactics" = 1 :=
  unrecognized_tag_scores_one {} "tactics"
    (by decide) (by decide) (by decide) (by decide) (by decide) (by decide)

/-- C5: `focus_duration` normalization saturates at 10: 60 and 120
minutes give identical psychology scores, the normalized contribution
`min(value/60*10, 10)` being 10 in both cases. -/
theorem focus_duration_saturates (sd : SectionData) :
    calculate_section_score { sd with focus_duration := some 60 } "psychology" =
        calculate_section_score { sd with focus_duration := some 120 } "psychology" ∧
      min ((60 : ℚ) / 60 * 10) 10 = 10 ∧ min ((120 : ℚ) / 60 * 10) 10 = 10 := by
  refine ⟨?_, by norm_num, by norm_num⟩
  simp [calculate_section_score, min_def]
  norm_num

/-- C7: the opening section score is exactly
`preparation_depth / 20 * 10` (with default 1), independent of every other
field; at `preparation_depth = 20` it is exactly 10. -/
theorem opening_score_formula (sd : SectionData) :
    calculate_section_score sd "opening" = sd.preparation_depth.getD 1 / 20 * 10 ∧
      (sd.preparation_depth = some 20 → calculate_section_score sd "opening" = 10) := by
  constructor
  · simp [calculate_section_score]
  · intro h
    simp [calculate_section_score, h]

/-- Witness for C7 at a concrete sub-record with `preparation_depth = 20`
and arbitrary other fields. -/
theorem opening_score_formula_witness :
    calculate_section_score
        { preparation_depth := some 20, tactical_vision := some 7,
          white_openings := some "e4" } "opening" = 10 :=
  (opening_score_formula _).2 rfl

/-- Membership in the `critical_areas` accumulator of the
`analyze_assessment` loop: an element is either already in the initial
accumulator or is the display name of a present section scoring ≤ 3. -/
lemma mem_foldl_crit (a : Assessment) (l : List String)
    (acc : List (String × ℚ) × List String × List String) (x : String) :
    (x ∈ (l.foldl (analyzeStep a) acc).2.1) ↔
      x ∈ acc.2.1 ∨ ∃ sec ∈ l, ∃ sd, a.get sec = some sd ∧
        calculate_section_score sd sec ≤ 3 ∧ x = displayName sec := by
  induction l generalizing acc with
  | nil => simp
  | cons hd tl ih =>
    rw [List.foldl_cons, ih, List.exists_mem_cons_iff]
    cases h : a.get hd with
    | none => simp [analyzeStep, h]
    | some sd =>
      by_cases hs : calculate_section_score sd hd ≤ 3 <;>
        simp [analyzeStep, h, hs] <;> tauto

/-- Membership in the `strengths` accumulator of the `analyze_assessment`
loop: an element is either already in the initial accumulator or is the
display name of a present section scoring ≥ 8 (and not ≤ 3, the `elif`). -/
lemma mem_foldl_str (a : Assessment) (l : List String)
    (acc : List (String × ℚ) × List String × List String) (x : String) :
    (x ∈ (l.foldl (analyzeStep a) acc).2.2) ↔
      x ∈ acc.2.2 ∨ ∃ sec ∈ l, ∃ sd, a.get sec = some sd ∧
        ¬ calculate_section_score sd sec ≤ 3 ∧
        8 ≤ calculate_section_score sd sec ∧ x = displayName sec := by
  induction l generalizing acc with
  | nil => simp
  | cons hd tl ih =>
    rw [List.foldl_cons, ih, List.exists_mem_cons_iff]
    cases h : a.get hd with
    | none => simp [analyzeStep, h]
    | some sd =>
      rcases le_or_lt (calculate_section_score sd hd) 3 with hs | hs
      · have hs3 : ¬ (3:ℚ) < calculate_section_score sd hd := not_lt.mpr hs
        simp [analyzeStep, h, hs, hs3]
      · have hs' : ¬ calculate_section_score sd hd ≤ 3 := not_le.mpr hs
        by_cases hs8 : (8:ℚ) ≤ calculate_section_score sd hd <;>
          simp [analyzeStep, h, hs', hs, hs8] <;> tauto

/-- `displayName` is injective on the six fixed section keys. -/
lemma displayName_inj_on_sections :
    ∀ s1 ∈ sectionsList, ∀ s2 ∈ sectionsList,
      displayName s1 = displayName s2 → s1 = s2 := by decide

lemma displayName_opening : displayName "opening" = "Opening" := by decide

lemma displayName_middlegame : displayName "middlegame" = "Middlegame" := by decide

lemma displayName_endgame : displayName "endgame" = "Endgame" := by decide

lemma displayName_psychology : displayName "psychology" = "Psychology" := by decide

lemma displayName_study_habits : displayName "study_habits" = "Study Habits" := by decide

lemma displayName_general : displayName "general" = "General" := by decide

/-- C8: in every analysis the two label lists are disjoint, and a present
category scoring strictly between 3 and 8 appears in neither list. -/
theorem labels_disjoint_and_mid_band_unlabelled (a : Assessment) :
    (∀ x, x ∈ (analyze_assessment a).critical_areas →
        x ∉ (analyze_assessment a).strengths) ∧
    (∀ sec ∈ sectionsList, ∀ sd, a.get sec = some sd →
        3 < calculate_section_score sd sec → calculate_section_score sd sec < 8 →
        displayName sec ∉ (analyze_assessment a).critical_areas ∧
        displayName sec ∉ (analyze_assessment a).strengths) := by
  have hc : ∀ x, x ∈ (analyze_assessment a).critical_areas ↔
      ∃ sec ∈ sectionsList, ∃ sd, a.get sec = some sd ∧
        calculate_section_score sd sec ≤ 3 ∧ x = displayName sec := by
    intro x
    have h := mem_foldl_crit a sectionsList ([], [], []) x
    simpa [analyze_assessment] using h
  have hst : ∀ x, x ∈ (analyze_assessment a).strengths ↔
      ∃ sec ∈ sectionsList, ∃ sd, a.get sec = some sd ∧
        ¬ calculate_section_score sd sec ≤ 3 ∧
        8 ≤ calculate_section_score sd sec ∧ x = displayName sec := by
    intro x
    have h := mem_foldl_str a sectionsList ([], [], []) x
    simpa [analyze_assessment] using h
  constructor
  · intro x hxc hxs
    rw [hc] at hxc
    rw [hst] at hxs
    obtain ⟨s1, hs1, sd1, hg1, hle, hx1⟩ := hxc
    obtain ⟨s2, hs2, sd2, hg2, hnle, _, hx2⟩ := hxs
    obtain rfl : s1 = s2 :=
      displayName_inj_on_sections s1 hs1 s2 hs2 (hx1 ▸ hx2 ▸ rfl)
    rw [hg1] at hg2
    injection hg2 with hsd
    subst hsd
    exact hnle hle
  · intro sec hsec sd hg h3 h8
    constructor
    · intro hmem
      rw [hc] at hmem
      obtain ⟨s', hs', sd', hg', hle', hx'⟩ := hmem
      obtain rfl : s' = sec :=
        displayName_inj_on_sections s' hs' sec hsec hx'.symm
      rw [hg] at hg'
      injection hg' with hsd
      subst hsd
      exact absurd hle' (not_le.mpr h3)
    · intro hmem
      rw [hst] at hmem
      obtain ⟨s', hs', sd', hg', _, hge', hx'⟩ := hmem
      obtain rfl : s' = sec :=
        displayName_inj_on_sections s' hs' sec hsec hx'.symm
      rw [hg] at hg'
      injection hg' with hsd
      subst hsd
      exact absurd hge' (not_le.mpr h8)

/-- A sub-record every one of whose six section scores is 5. -/
def subUniform5 : SectionData :=
  { preparation_depth := some 10
    calculation_ability := some 5
    tactical_vision := some 5
    endgame_calculation := some 5
    theoretical_knowledge := some 5
    pawn_endgames := some 5
    rook_endgames := some 5
    bishop_endgames := some 5
    knight_endgames := some 5
    queen_endgames := some 5
    confidence_level := some 5
    motivation_level := some 5
    focus_duration := some 30
    study_consistency := some 5
    daily_study_time := some 60
    physical_stamina := some 5
    sleep_before_games := some 4 }

/-- An assessment with all six categories present, each scoring 5. -/
def assess5 : Assessment :=
  { opening := some subUniform5
    middlegame := some subUniform5
    endgame := some subUniform5
    psychology := some subUniform5
    study_habits := some subUniform5
    general := some subUniform5 }

/-- Witness for C8 at a concrete record: the present `opening` section of
`assess5` scores 5 ∈ (3, 8) and its display name is in neither list. -/
theorem labels_disjoint_witness :
    displayName "opening" ∉ (analyze_assessment assess5).critical_areas ∧
      displayName "opening" ∉ (analyze_assessment assess5).strengths :=
  (labels_disjoint_and_mid_band_unlabelled assess5).2 "opening" (by decide)
    subUniform5 rfl
    (by simp [calculate_section_score, subUniform5] <;> norm_num)
    (by simp [calculate_section_score, subUniform5] <;> norm_num)

/-- C2: when all six categories are present and each scores the same
value `s` with `3 < s < 8`, the overall score is exactly `s` and both
label lists are empty. -/
theorem uniform_mid_scores (a : Assessment) (s : ℚ) (o m e p st g : SectionData)
    (ho : a.opening = some o) (hm : a.middlegame = some m)
    (he : a.endgame = some e) (hp : a.psychology = some p)
    (hst : a.study_habits = some st) (hg : a.general = some g)
    (so : calculate_section_score o "opening" = s)
    (sm : calculate_section_score m "middlegame" = s)
    (se : calculate_section_score e "endgame" = s)
    (sp : calculate_section_score p "psychology" = s)
    (sst : calculate_section_score st "study_habits" = s)
    (sg : calculate_section_score g "general" = s)
    (h3 : 3 < s) (h8 : s < 8) :
    (analyze_assessment a).overall_score = s ∧
      (analyze_assessment a).critical_areas = [] ∧
      (analyze_assessment a).strengths = [] := by
  have hnle : ¬ s ≤ 3 := not_le.mpr h3
  have hnge : ¬ (8:ℚ) ≤ s := not_le.mpr h8
  refine ⟨?_, ?_, ?_⟩ <;>
    simp [analyze_assessment, sectionsList, analyzeStep, Assessment.get,
      ho, hm, he, hp, hst, hg, so, sm, se, sp, sst, sg, hnle, hnge] <;>
    ring

/-- Witness for C2 at `assess5`, whose six section scores all equal 5. -/
theorem uniform_mid_scores_witness :
    (analyze_assessment assess5).overall_score = 5 ∧
      (analyze_assessment assess5).critical_areas = [] ∧
      (analyze_assessment assess5).strengths = [] :=
  uniform_mid_scores assess5 5 subUniform5 subUniform5 subUniform5 subUniform5
    subUniform5 subUniform5 rfl rfl rfl rfl rfl rfl
    (by simp [calculate_section_score, subUniform5] <;> norm_num)
    (by simp [calculate_section_score, subUniform5] <;> norm_num)
    (by simp [calculate_section_score, subUniform5] <;> norm_num)
    (by simp [calculate_section_score, subUniform5, min_def] <;> norm_num)
    (by simp [calculate_section_score, subUniform5, min_def] <;> norm_num)
    (by simp [calculate_section_score, subUniform5, min_def] <;> norm_num)
    (by norm_num) (by norm_num)

/-- C6: when all six categories are present and each scores 2, the
critical areas are exactly the six display names in the fixed iteration
order, and there are no strengths. -/
theorem all_twos_all_critical (a : Assessment) (o m e p st g : SectionData)
    (ho : a.opening = some o) (hm : a.middlegame = some m)
    (he : a.endgame = some e) (hp : a.psychology = some p)
    (hst : a.study_habits = some st) (hg : a.general = some g)
    (so : calculate_section_score o "opening" = 2)
    (sm : calculate_section_score m "middlegame" = 2)
    (se : calculate_section_score e "endgame" = 2)
    (sp : calculate_section_score p "psychology" = 2)
    (sst : calculate_section_score st "study_habits" = 2)
    (sg : calculate_section_score g "general" = 2) :
    (analyze_assessment a).critical_areas =
        ["Opening", "Middlegame", "Endgame", "Psychology", "Study Habits",
         "General"] ∧
      (analyze_assessment a).strengths = [] := by
  have h2 : ((2:ℚ) ≤ 3) = True := by norm_num
  refine ⟨?_, ?_⟩ <;>
    simp [analyze_assessment, sectionsList, analyzeStep, Assessment.get,
      ho, hm, he, hp, hst, hg, so, sm, se, sp, sst, sg, h2,
      displayName_opening, displayName_middlegame, displayName_endgame,
      displayName_psychology, displayName_study_habits, displayName_general]

/-- A sub-record every one of whose six section scores is 2. -/
def subUniform2 : SectionData :=
  { preparation_depth := some 4
    calculation_ability := some 2
    tactical_vision := some 2
    endgame_calculation := some 2
    theoretical_knowledge := some 2
    pawn_endgames := some 2
    rook_endgames := some 2
    bishop_endgames := some 2
    knight_endgames := some 2
    queen_endgames := some 2
    confidence_level := some 2
    motivation_level := some 2
    focus_duration := some 12
    study_consistency := some 2
    daily_study_time := some 24
    physical_stamina := some 2
    sleep_before_games := some (8/5) }

/-- An assessment with all six categories present, each scoring 2. -/
def assess2 : Assessment :=
  { opening := some subUniform2
    middlegame := some subUniform2
    endgame := some subUniform2
    psychology := some subUniform2
    study_habits := some subUniform2
    general := some subUniform2 }

/-- Witness for C6 at `assess2`, whose six section scores all equal 2. -/
theorem all_twos_all_critical_witness :
    (analyze_assessment assess2).critical_areas =
        ["Opening", "Middlegame", "Endgame", "Psychology", "Study Habits",
         "General"] ∧
      (analyze_assessment assess2).strengths = [] :=
  all_twos_all_critical assess2 subUniform2 subUniform2 subUniform2 subUniform2
    subUniform2 subUniform2 rfl rfl rfl rfl rfl rfl
    (by simp [calculate_section_score, subUniform2] <;> norm_num)
    (by simp [calculate_section_score, subUniform2] <;> norm_num)
    (by simp [calculate_section_score, subUniform2] <;> norm_num)
    (by simp [calculate_section_score, subUniform2, min_def] <;> norm_num)
    (by simp [calculate_section_score, subUniform2, min_def] <;> norm_num)
    (by simp [calculate_section_score, subUniform2, min_def] <;> norm_num)

/-- The sub-record whose every field carries its declared pydantic
default (ints 1, study times 0, `focus_duration` 10, `daily_study_time`
10, `sleep_before_games` 8.0, strings empty). -/
def subDefaults : SectionData :=
  { white_openings := some ""
    black_openings := some ""
    preparation_depth := some 1
    opening_study_time := some 0
    favorite_opening := some ""
    opening_weaknesses := some ""
    opening_study_resources := some ""
    calculation_ability := some 1
    tactical_vision := some 1
    middlegame_study_time := some 0
    main_problems := some ""
    pattern_recognition := some ""
    strategic_understanding := some ""
    piece_coordination := some ""
    attack_defense_balance := some ""
    endgame_calculation := some 1
    theoretical_knowledge := some 1
    endgame_study_time := some 0
    endgame_intuition := some ""
    practical_application := some ""
    pawn_endgames := some 1
    rook_endgames := some 1
    bishop_endgames := some 1
    knight_endgames := some 1
    queen_endgames := some 1
    confidence_level := some 1
    motivation_level := some 1
    focus_duration := some 10
    anxiety_management := some ""
    pressure_handling := some ""
    tilt_recovery := some ""
    competitive_mindset := some ""
    mental_preparation := some ""
    self_evaluation_skills := some ""
    daily_study_time := some 10
    study_consistency := some 1
    preferred_methods := some ""
    analysis_habits := some ""
    game_review_frequency := some ""
    coach_interaction := some ""
    goal_setting := some ""
    study_resources := some ""
    physical_stamina := some 1
    sleep_before_games := some 8
    nutrition_habits := some ""
    exercise_routine := some ""
    technology_usage := some ""
    tournament_purpose := some ""
    additional_notes := some "" }

/-- C3: `analyze_assessment` is total; on a record with none of the six
category keys it returns overall score exactly 1.0 (and empty scores and
labels), and for every tag a fully-missing sub-record scores the same as
the sub-record with every field explicitly at its declared default. -/
theorem analyze_total_and_defaults :
    (analyze_assessment {}).overall_score = 1 ∧
      (analyze_assessment {}).section_scores = [] ∧
      (analyze_assessment {}).critical_areas = [] ∧
      (analyze_assessment {}).strengths = [] ∧
      ∀ t : String, calculate_section_score {} t = calculate_section_score subDefaults t := by
  refine ⟨?_, ?_, ?_, ?_, ?_⟩
  · simp [analyze_assessment, sectionsList, analyzeStep, Assessment.get]
  · simp [analyze_assessment, sectionsList, analyzeStep, Assessment.get]
  · simp [analyze_assessment, sectionsList, analyzeStep, Assessment.get]
  · simp [analyze_assessment, sectionsList, analyzeStep, Assessment.get]
  · intro t
    simp only [calculate_section_score]
    split_ifs <;> norm_num [subDefaults]

/-- Modelled from the spec: timestamps ("an ISO-8601 timestamp field that
the store's adapter must be able to parse back into a structured
timestamp", §6).  The Python `datetime` type is external to the
repository; it is modelled abstractly as a countable type with an
injective ISO string encoding and a partial inverse parser. -/
abbrev DT : Type := Nat

/-- Modelled from the spec: `datetime.isoformat()` — an injective string
encoding of a timestamp (outputs never contain `'Z'`, matching CPython,
whose `isoformat` always renders the UTC offset as `+00:00`). -/
def isoformat (d : DT) : String :=
  String.mk ('x' :: List.replicate d 'x')

/-- Modelled from the spec: `datetime.fromisoformat` applied after the
`value.replace('Z', '+00:00')` pre-step of `parse_from_mongo` — a partial
inverse of `isoformat` that accepts some strings and rejects others
(`none` = the `ValueError` swallowed by the `except: pass`). -/
def parseIso (s : String) : Option DT :=
  match s.data with
  | [] => none
  | c :: cs => if c = 'x' ∧ cs.all (fun a => a = 'x') then some cs.length else none

lemma parseIso_isoformat (d : DT) : parseIso (isoformat d) = some d := by
  simp [parseIso, isoformat, List.all_eq_true, List.mem_replicate]

mutual
/-- A Python value as stored in an assessment/coach document: strings,
datetimes, numbers, lists and (string-keyed, insertion-ordered)
dictionaries.  `MDict` is the association list of a dict's items. -/
inductive MVal : Type where
  | str : String → MVal
  | dt : DT → MVal
  | num : ℚ → MVal
  | list : MList → MVal
  | dict : MDict → MVal

inductive MList : Type where
  | nil : MList
  | cons : MVal → MList → MList

inductive MDict : Type where
  | nil : MDict
  | cons : String → MVal → MDict → MDict
end

/-- The two keys `parse_from_mongo` converts
(`['submission_date', 'created_at']`, line 158). -/
def isDateKey (k : String) : Bool :=
  k = "submission_date" || k = "created_at"

mutual
/-- Value-level action of `prepare_for_mongo` (lines 144–152): a
`datetime` becomes its ISO string, a dict is rewritten entry by entry,
everything else (strings, numbers, lists) passes through untouched. -/
def prepareVal : MVal → MVal
  | .str s => .str s
  | .dt d => .str (isoformat d)
  | .num q => .num q
  | .list l => .list l
  | .dict m => .dict (prepare_for_mongo m)

/-- `prepare_for_mongo(data)` from `src/server.py` lines 144–152:
converts `datetime` values to ISO strings, recursing into nested dicts
(but not into lists). -/
def prepare_for_mongo : MDict → MDict
  | .nil => .nil
  | .cons k v tl => .cons k (prepareVal v) (prepare_for_mongo tl)
end

mutual
/-- Entry-level action of `parse_from_mongo` (lines 154–165): a string
under `submission_date`/`created_at` is parsed back to a `datetime` when
the parse succeeds (the `except: pass` keeps it a string otherwise); a
dict is rewritten recursively; every other value passes through. -/
def parseVal (k : String) : MVal → MVal
  | .str s =>
    if isDateKey k then
      match parseIso s with
      | some d => .dt d
      | none => .str s
    else .str s
  | .dict m => .dict (parse_from_mongo m)
  | v => v

/-- `parse_from_mongo(data)` from `src/server.py` lines 154–165. -/
def parse_from_mongo : MDict → MDict
  | .nil => .nil
  | .cons k v tl => .cons k (parseVal k v) (parse_from_mongo tl)
end

mutual
/-- The round-trip condition on a value stored under key `k`: a datetime
may sit only under a date key, a string under a date key must be one the
ISO parser rejects, and nested dicts must satisfy the condition
entry-wise. -/
def okVal (k : String) : MVal → Bool
  | .dt _ => isDateKey k
  | .str s => !isDateKey k || (parseIso s).isNone
  | .dict m => okDict m
  | _ => true

/-- Entry-wise round-trip condition on a dict. -/
def okDict : MDict → Bool
  | .nil => true
  | .cons k v tl => okVal k v && okDict tl
end

mutual
/-- The condition exactly as C9 states it: datetime values occur only
under `submission_date` / `created_at` (no constraint on strings). -/
def statedVal (k : String) : MVal → Bool
  | .dt _ => isDateKey k
  | .dict m => statedDict m
  | _ => true

/-- Entry-wise form of the stated C9 condition. -/
def statedDict : MDict → Bool
  | .nil => true
  | .cons k v tl => statedVal k v && statedDict tl
end

mutual
theorem roundVal (k : String) (v : MVal) (h : okVal k v = true) :
    parseVal k (prepareVal v) = v :=
  match v with
  | .str s => by
    by_cases hk : isDateKey k = true
    · have hn : parseIso s = none := by
        have := h
        simp [okVal, hk, Option.isNone_iff_eq_none] at this
        exact this
      simp [prepareVal, parseVal, hk, hn]
    · simp [prepareVal, parseVal, hk]
  | .dt d => by
    have hk : isDateKey k = true := by simpa [okVal] using h
    simp [prepareVal, parseVal, hk, parseIso_isoformat]
  | .num q => rfl
  | .list l => rfl
  | .dict m => by
    have hm : okDict m = true := by simpa [okVal] using h
    simp [prepareVal, parseVal, roundDict m hm]

theorem roundDict (m : MDict) (h : okDict m = true) :
    parse_from_mongo (prepare_for_mongo m) = m :=
  match m with
  | .nil => rfl
  | .cons k v tl => by
    have hv : okVal k v = true := by
      have := h; simp [okDict] at this; exact this.1
    have ht : okDict tl = true := by
      have := h; simp [okDict] at this; exact this.2
    simp [prepare_for_mongo, parse_from_mongo, roundVal k v hv, roundDict tl ht]
end

/-- A dict with no datetime values at all (so it satisfies C9's stated
side condition vacuously) but with a parseable plain string stored under
`created_at`. -/
def cexDoc : MDict := .cons "created_at" (.str "x") .nil

/-- C9 counterexample: `cexDoc` satisfies the claim's stated condition —
its datetime values (none) occur only under the two date keys — yet
`parse_from_mongo ∘ prepare_for_mongo` turns the plain string under
`created_at` into a datetime, so the round trip does not restore it. -/
theorem mongo_roundtrip_cex :
    statedDict cexDoc = true ∧
      parse_from_mongo (prepare_for_mongo cexDoc) ≠ cexDoc := by
  refine ⟨rfl, ?_⟩
  intro h
  have h0 : parse_from_mongo (prepare_for_mongo cexDoc) =
      MDict.cons "created_at" (MVal.dt 0) MDict.nil := rfl
  rw [h0] at h
  unfold cexDoc at h
  injection h with h1 h2 h3
  exact MVal.noConfusion h2

/-- C9 (amended): the round trip `parse_from_mongo ∘ prepare_for_mongo`
is the identity on every (possibly nested) dict whose datetimes occur
only under `submission_date`/`created_at` and whose string values under
those keys are ones the ISO parser rejects; and a datetime stored under
any other key is serialized to its ISO string by `prepare_for_mongo` but
is not converted back by `parse_from_mongo`. -/
theorem mongo_serialization_roundtrip :
    (∀ m : MDict, okDict m = true → parse_from_mongo (prepare_for_mongo m) = m) ∧
      (∀ (k : String) (d : DT), isDateKey k = false →
        parseVal k (prepareVal (.dt d)) = .str (isoformat d)) := by
  constructor
  · exact fun m h => roundDict m h
  · intro k d hk
    simp [prepareVal, parseVal, hk]

/-- A nested document: an id string, a datetime under `submission_date`,
and a sub-dict holding a datetime under `created_at` plus a non-ISO
string under `submission_date`. -/
def goodDoc : MDict :=
  .cons "id" (.str "a1")
    (.cons "submission_date" (.dt 3)
      (.cons "opening"
        (.dict (.cons "created_at" (.dt 0)
          (.cons "submission_date" (.str "not-a-date") .nil))) .nil))

/-- Witness for the amended C9: the round trip restores `goodDoc`
(nested datetimes under the two date keys), and a datetime under the
foreign key `"other"` comes back as a string. -/
theorem mongo_serialization_roundtrip_witness :
    parse_from_mongo (prepare_for_mongo goodDoc) = goodDoc ∧
      parseVal "other" (prepareVal (.dt 2)) = .str (isoformat 2) :=
  ⟨mongo_serialization_roundtrip.1 goodDoc rfl,
    mongo_serialization_roundtrip.2 "other" 2 rfl⟩

/-- Python `str.strip()` with no argument: leading and trailing
whitespace removed (whitespace per `Char.isWhitespace`, which covers the
ASCII whitespace the claims exercise). -/
def pyStrip (s : String) : String :=
  String.mk
    (((s.data.dropWhile Char.isWhitespace).reverse.dropWhile
        Char.isWhitespace).reverse)

/-- Byte-level truncation with `errors="ignore"` re-decoding:
`s.encode('utf-8')[:n].decode('utf-8', errors='ignore')` keeps the
longest prefix of whole characters whose UTF-8 encoding fits in `n`
bytes (byte-slicing a valid UTF-8 string can only break the final
character, which `ignore` drops). -/
def utf8Truncate (n : Nat) : List Char → List Char
  | [] => []
  | c :: cs => if c.utf8Size ≤ n then c :: utf8Truncate (n - c.utf8Size) cs else []

/-- The 72-byte bcrypt input cap of `verify_password`
(`if len(plain_password.encode("utf-8")) > 72: …`). -/
def truncate72 (s : String) : String :=
  if s.utf8ByteSize > 72 then String.mk (utf8Truncate 72 s.data) else s

/-- `verify_password(plain_password, hashed_password)` from
`src/server.py` lines 250–268.  The passlib `bcrypt.verify` call is an
external collaborator, passed in as an oracle `bverify`; `none` models
the call raising, which the surrounding `try/except` turns into
`False`. -/
def verify_password (bverify : String → String → Option Bool)
    (plain_password hashed_password : String) : Bool :=
  let plain := pyStrip plain_password
  let hashed := pyStrip hashed_password
  if plain = "" || hashed = "" then false
  else
    let plain := truncate72 plain
    match bverify plain hashed with
    | some b => b
    | none => false

/-- C10: whenever the plaintext or the stored hash is empty after
stripping, `verify_password` returns `False` for every behaviour of the
underlying bcrypt oracle — in particular the comparison is never
consulted and no exception escapes. -/
theorem verify_password_empty_false
    (bverify : String → String → Option Bool) (p h : String)
    (hemp : pyStrip p = "" ∨ pyStrip h = "") :
    verify_password bverify p h = false := by
  rcases hemp with hemp | hemp <;> simp [verify_password, hemp]

/-- Witness for C10: a whitespace-only password against a non-empty hash
is rejected even by an always-accepting oracle. -/
theorem verify_password_empty_false_witness :
    verify_password (fun _ _ => some true) "   " "stored-hash" = false :=
  verify_password_empty_false (fun _ _ => some true) "   " "stored-hash"
    (Or.inl (by decide))

